import Mathlib

/-!
Shallow embedding of the NEURO-OS backend (Llama3Agent / OllamaClient).

The embedding models the response classifier, the command safety gate,
the session state (working directory, conversation history) and the
responder orchestration of `Llama3Agent.process_query`, together with the
streaming behaviour of `OllamaClient.generate_text`.  External boundaries
(the filesystem, the process-spawning primitive, the HTTP transport) are
modelled as explicit parameters; everything the repository computes is
translated to executable Lean functions.

Python string primitives are embedded directly (structural recursion over
the character list), mirroring CPython semantics of `str.strip`,
`str.split`, `str.startswith` and slicing, so that every definition can be
evaluated by the kernel on concrete inputs.
-/

/-- CPython `str.isspace` on the ASCII whitespace characters that occur in
this code base: space, tab, newline, carriage return, vertical tab, form
feed. -/
def isSpace (c : Char) : Bool :=
  c == ' ' || c == '\t' || c == '\n' || c == '\r' || c == '\x0b' || c == '\x0c'

/-- Python `s.strip()`: remove leading and trailing whitespace. -/
def pyStrip (s : String) : String :=
  String.mk (((s.data.dropWhile isSpace).reverse.dropWhile isSpace).reverse)

/-- Python `s.startswith(p)`. -/
def pyStartswith (s p : String) : Bool :=
  p.data.isPrefixOf s.data

/-- Python `s.endswith(p)`. -/
def pyEndswith (s p : String) : Bool :=
  p.data.isSuffixOf s.data

/-- Python slicing `s[n:]` (character based; all strings involved are
ASCII). -/
def pyDrop (s : String) (n : Nat) : String :=
  String.mk (s.data.drop n)

/-- Helper for `pySplitChar`: accumulates the current segment (reversed). -/
def splitCharAux (sep : Char) : List Char → List Char → List String
  | [], acc => [String.mk acc.reverse]
  | c :: cs, acc =>
    if c == sep then String.mk acc.reverse :: splitCharAux sep cs []
    else splitCharAux sep cs (c :: acc)

/-- Python `s.split(sep)` for a one-character separator: keeps empty
segments, `"".split(sep) == [""]`. -/
def pySplitChar (s : String) (sep : Char) : List String :=
  splitCharAux sep s.data []

/-- Python `sep.join(parts)`. -/
def joinSep (sep : String) : List String → String
  | [] => ""
  | [x] => x
  | x :: y :: xs => x ++ sep ++ joinSep sep (y :: xs)

/-- The `full_response` accumulation loop of `process_query`
(`full_response += chunk` over the drained stream). -/
def concatChunks (chunks : List String) : String :=
  chunks.foldl (fun acc c => acc ++ c) ""

/-! ## Data model -/

/-- One entry of `conversation_history`: a `role`/`content` message dict. -/
structure Turn where
  role : String
  content : String
deriving DecidableEq, Repr

/-- The mutable fields of `Llama3Agent` that a turn can change. -/
structure AgentState where
  conversation_history : List Turn
  current_working_directory : String
deriving DecidableEq, Repr

/-- The filesystem boundary: `os.path.exists` and `os.path.isdir`,
abstracted as predicates on absolute path strings. -/
structure FileSystem where
  path_exists : String → Bool
  isdir : String → Bool

/-- Outcome of one `subprocess.run(..., shell=True, check=True)` call, as
the `try`/`except` ladder of `_execute_shell_command` distinguishes them:
a completed process (exit 0, captured stdout/stderr), a
`CalledProcessError` (non-zero exit code plus stderr), a
`FileNotFoundError`, or any other exception rendered by its message. -/
inductive ExecResult where
  | completed (stdout stderr : String)
  | calledProcessError (returncode : Int) (stderr : String)
  | fileNotFoundError
  | otherError (message : String)
deriving DecidableEq, Repr

/-- The classifier's three-way decision over the assembled model output
(`process_query`, lines 110-142): a `[COMMAND]:` match, a leading
```` ```python ```` fence, or plain text. -/
inductive ClassifiedResponse where
  | command (commandText : String)
  | code (body : String)
  | text (body : String)
deriving DecidableEq, Repr

/-- Decision of the safety gate inside `_execute_shell_command`, one
constructor per early return of lines 41-51 plus the fall-through. -/
inductive GateDecision where
  | noCommand
  | traversalBlocked
  | notWhitelisted (base : String)
  | allowed (base : String)
deriving DecidableEq, Repr

/-- `Allowed` is the only decision that reaches `subprocess.run`; every
other constructor is a denial. -/
def GateDecision.isDenied : GateDecision → Bool
  | .allowed _ => false
  | _ => true

/-! ## Command safety gate (`Llama3Agent._execute_shell_command`) -/

/-- `self.whitelisted_commands`: the dict of base command names, all mapped
to `True` at construction. -/
def whitelisted_commands : List (String × Bool) :=
  [("ls", true), ("pwd", true), ("cat", true), ("echo", true), ("find", true),
   ("grep", true), ("df", true), ("du", true), ("ps", true), ("whoami", true),
   ("mkdir", true), ("rmdir", true), ("touch", true), ("rm", true)]

/-- The literal exemption list of the parent-traversal check (line 47):
`["cd", "ls", "cat", "find", "grep"]`. -/
def navigation_commands : List String :=
  ["cd", "ls", "cat", "find", "grep"]

/-- `cmd_parts[0]` of `command_string.strip().split(maxsplit=1)`: the first
whitespace-delimited token of the stripped command (empty when the command
strips to nothing). -/
def baseCommand (command_string : String) : String :=
  String.mk ((pyStrip command_string).data.takeWhile (fun c => !isSpace c))

/-- Line 43 of `Llama3_agent.py`. -/
def noCommandMessage : String :=
  "Error: No command provided for execution."

/-- Line 48 of `Llama3_agent.py`. -/
def securityAlertMessage : String :=
  "Security Alert: Command contains '..' and is not a permitted navigation/read command. Execution blocked."

/-- Line 51 of `Llama3_agent.py` (the f-string with the base command). -/
def whitelistDenialMessage (base : String) : String :=
  "Error: Command '" ++ base ++ "' is not explicitly whitelisted for execution."

/-- The gate of `_execute_shell_command`, lines 41-51: empty-command check,
then the `".." in command_string.split('/')` parent-traversal rule with its
five-command exemption list, then whitelist membership
(`base_command not in self.whitelisted_commands or not
self.whitelisted_commands[base_command]`). -/
def gateDecision (command_string : String) : GateDecision :=
  if pyStrip command_string = "" then .noCommand
  else
    let base := baseCommand command_string
    if (pySplitChar command_string '/').contains ".." && !(navigation_commands.contains base) then
      .traversalBlocked
    else if !((whitelisted_commands.lookup base).getD false) then
      .notWhitelisted base
    else
      .allowed base

/-- Lines 63-78 of `Llama3_agent.py`: rendering of the execution outcome.
Stdout is preferred when non-empty after stripping, else stderr, else the
fixed success message; the three `except` clauses render their own
messages. -/
def formatExecResult (base : String) : ExecResult → String
  | .completed stdout stderr =>
    let output := pyStrip stdout
    let error_output := pyStrip stderr
    if output ≠ "" then "Command Output:\n```bash\n" ++ output ++ "\n```"
    else if error_output ≠ "" then "Command Error:\n```bash\n" ++ error_output ++ "\n```"
    else "Command executed successfully with no output."
  | .calledProcessError returncode stderr =>
    "Command failed with exit code " ++ toString returncode ++
      ":\nError Output:\n```bash\n" ++ pyStrip stderr ++ "\n```"
  | .fileNotFoundError =>
    "Error: Command '" ++ base ++ "' not found. Is it installed?"
  | .otherError message =>
    "An unexpected error occurred during command execution: " ++ message

/-- `Llama3Agent._execute_shell_command`: the gate followed, only on
`allowed`, by the process-execution collaborator `run` (the
`subprocess.run` boundary).  Returns the reported text together with a flag
recording whether the collaborator was invoked. -/
def execute_shell_command (command_string : String) (run : String → ExecResult) :
    String × Bool :=
  match gateDecision command_string with
  | .noCommand => (noCommandMessage, false)
  | .traversalBlocked => (securityAlertMessage, false)
  | .notWhitelisted base => (whitelistDenialMessage base, false)
  | .allowed _ =>
    (formatExecResult (baseCommand command_string) (run command_string), true)

/-! ## Path resolution (`os.path.join` / `os.path.abspath` on POSIX) -/

/-- CPython `posixpath.join(a, b)` for two components. -/
def posixpath_join (a b : String) : String :=
  if pyStartswith b "/" then b
  else if a = "" || pyEndswith a "/" then a ++ b
  else a ++ "/" ++ b

/-- One step of the component loop of CPython `posixpath.normpath`. -/
def normpathStep (initialSlashes : Nat) (acc : List String) (comp : String) :
    List String :=
  if comp = "" || comp = "." then acc
  else if comp ≠ ".." || (initialSlashes == 0 && acc.isEmpty) ||
      (!acc.isEmpty && acc.getLast? == some "..") then
    acc ++ [comp]
  else if !acc.isEmpty then acc.dropLast
  else acc

/-- CPython `posixpath.normpath`: collapse empty and `.` components,
resolve `..` against preceding components (keeping leading `..` of a
relative path and dropping `..` at the root), preserving the special
double-leading-slash case. -/
def normpath (path : String) : String :=
  if path = "" then "."
  else
    let initialSlashes : Nat :=
      if pyStartswith path "/" then
        if pyStartswith path "//" && !(pyStartswith path "///") then 2 else 1
      else 0
    let newComps := (pySplitChar path '/').foldl (normpathStep initialSlashes) []
    let joined := joinSep "/" newComps
    let result := String.mk (List.replicate initialSlashes '/') ++ joined
    if result = "" then "." else result

/-- `os.path.abspath(os.path.join(cwd, path))` as `process_query` line 118
computes it.  The session's `current_working_directory` is always an
absolute path (it starts at `os.path.expanduser("~")` and is only ever
replaced by `abspath` results), so `join` yields an absolute path and
`abspath` reduces to `normpath`. -/
def resolvePath (cwd path : String) : String :=
  normpath (posixpath_join cwd path)

/-! ## Session state: directory change (`process_query`, lines 116-124) -/

/-- Line 122 of `Llama3_agent.py`. -/
def cdSuccessMessage (p : String) : String :=
  "Changed current working directory to: `" ++ p ++ "`"

/-- Line 124 of `Llama3_agent.py` (the message names the path as given,
before resolution). -/
def cdFailureMessage (new_path : String) : String :=
  "Error: Cannot change directory to `" ++ new_path ++ "`. Path does not exist or is not a directory."

/-- The internal `cd` handling of `process_query`: resolve the requested
path against the current working directory; update the directory exactly
when the resolved path exists and is a directory, else leave it unchanged.
Returns the new working directory and the reported message. -/
def changeDirectory (fs : FileSystem) (cwd new_path : String) : String × String :=
  let absolute_new_path := resolvePath cwd new_path
  if fs.path_exists absolute_new_path && fs.isdir absolute_new_path then
    (absolute_new_path, cdSuccessMessage absolute_new_path)
  else
    (cwd, cdFailureMessage new_path)

/-! ## Response classifier (`process_query`, lines 107-142) -/

/-- The branch structure of `process_query` over the stripped model output
`final_response`: `re.match(r'\[COMMAND\]:\s*(.*)', final_response,
re.DOTALL)` succeeds exactly when the stripped text starts with the
10-character literal `[COMMAND]:`, and `group(1).strip()` is then the
stripped remainder after those 10 characters (the greedy `\s*` removes
leading whitespace, `strip` the trailing, and `re.DOTALL` lets the
remainder span newlines); else the `startswith("```python")` test selects
the code branch with the whole stripped text; else plain text. -/
def classify (raw : String) : ClassifiedResponse :=
  let final_response := pyStrip raw
  if pyStartswith final_response "[COMMAND]:" then
    .command (pyStrip (pyDrop final_response 10))
  else if pyStartswith final_response "```python" then
    .code final_response
  else
    .text final_response

/-! ## Responder (`Llama3Agent.process_query`) -/

/-- Line 100 of `Llama3_agent.py`. -/
def apologyMessage : String :=
  "I'm sorry, I'm having trouble connecting to the model right now. Please try again later."

/-- `Llama3Agent.process_query` as written: append the user Turn; if the
gateway handle is `None`, return the apology with no assistant Turn
(lines 98-100); otherwise drain the stream, classify, and either run the
internal `cd` handling, or the safety gate plus the process-execution
collaborator `run`, or pass the text through; in every non-`None` branch
append one assistant Turn carrying the turn's output. -/
def process_query (fs : FileSystem) (run : String → ExecResult)
    (st : AgentState) (query : String)
    (response_generator : Option (List String)) : AgentState × String :=
  let st1 : AgentState :=
    { st with conversation_history := st.conversation_history ++ [⟨"user", query⟩] }
  match response_generator with
  | none => (st1, apologyMessage)
  | some chunks =>
    let full_response := concatChunks chunks
    match classify full_response with
    | .command command_string =>
      if pyStartswith command_string "cd " then
        let new_path := pyStrip (pyDrop command_string 3)
        let cdResult := changeDirectory fs st.current_working_directory new_path
        ({ conversation_history := st1.conversation_history ++ [⟨"assistant", cdResult.2⟩],
           current_working_directory := cdResult.1 }, cdResult.2)
      else
        let execResult := execute_shell_command command_string run
        ({ st1 with conversation_history :=
             st1.conversation_history ++ [⟨"assistant", execResult.1⟩] }, execResult.1)
    | .code body =>
      ({ st1 with conversation_history :=
           st1.conversation_history ++ [⟨"assistant", body⟩] }, body)
    | .text body =>
      ({ st1 with conversation_history :=
           st1.conversation_history ++ [⟨"assistant", body⟩] }, body)

/-! ## Model gateway (`OllamaClient.generate_text`, stream=True) -/

/-- Outcome of the HTTP transport underneath one streaming
`generate_text` call. -/
inductive GatewayOutcome where
  | connectError
  | httpStatusError (code : Nat)
  | ok (fragments : List String)
deriving DecidableEq, Repr

/-- The fragments the caller of `generate_text(stream=True)` actually
iterates.  Because the function body contains `yield`, CPython makes
`generate_text` a generator function: calling it always returns a
generator object (never `None`), and the `return ... if not stream else
None` statements inside the `except` clauses merely stop the iteration.
`httpx.ConnectError` is raised on entering the response context and
`HTTPStatusError` by `raise_for_status`, both before any fragment is
yielded, so either failure produces an empty fragment sequence. -/
def generate_text_stream : GatewayOutcome → List String
  | .connectError => []
  | .httpStatusError _ => []
  | .ok fragments => fragments

/-- `process_query` composed with the real gateway call of line 90: the
`response_generator` handle is always `some` (a generator object), with
the fragment list `generate_text_stream` yields for the transport
outcome. -/
def process_query_live (fs : FileSystem) (run : String → ExecResult)
    (st : AgentState) (query : String) (outcome : GatewayOutcome) :
    AgentState × String :=
  process_query fs run st query (some (generate_text_stream outcome))

/-! ## Concrete collaborators for closed evaluations -/

/-- A filesystem on which no path exists. -/
def fsNone : FileSystem :=
  ⟨fun _ => false, fun _ => false⟩

/-- A filesystem with exactly one directory, `/tmp`. -/
def fsTmp : FileSystem :=
  ⟨fun s => s == "/tmp", fun s => s == "/tmp"⟩

/-- A process runner whose processes complete silently. -/
def runStub : String → ExecResult :=
  fun _ => ExecResult.completed "" ""

/-- A fresh session at `/root` with empty history. -/
def initialState : AgentState :=
  ⟨[], "/root"⟩

/-! ## Claims -/

/-- C5: every raw model output whose stripped form begins with the literal
command marker `[COMMAND]:` classifies as `Command` with `commandText` the
trimmed remainder (embedded newlines included), and never as `Code`: the
marker rule precedes the code-block rule in the branch order. -/
theorem c5_command_marker_precedence (raw : String)
    (h : pyStartswith (pyStrip raw) "[COMMAND]:" = true) :
    classify raw = ClassifiedResponse.command (pyStrip (pyDrop (pyStrip raw) 10)) ∧
    ∀ b, classify raw ≠ ClassifiedResponse.code b := by
  have hc : classify raw = ClassifiedResponse.command (pyStrip (pyDrop (pyStrip raw) 10)) := by
    simp only [classify]
    rw [if_pos h]
  exact ⟨hc, fun b hb => by rw [hc] at hb; exact ClassifiedResponse.noConfusion hb⟩

/-- C5 witness: a marker-led output whose remainder spans a newline and
itself looks like a Python code fence still classifies as `Command`. -/
theorem c5_command_marker_precedence_witness :
    classify "[COMMAND]: ```python\necho hi" =
      ClassifiedResponse.command "```python\necho hi" :=
  ((c5_command_marker_precedence "[COMMAND]: ```python\necho hi" (by decide)).1).trans
    (by decide)

/-- A string all of whose characters are whitespace strips to the empty
string. -/
theorem pyStrip_of_all_space (s : String) (h : s.data.all isSpace = true) :
    pyStrip s = "" := by
  have h1 : s.data.dropWhile isSpace = [] := by
    rw [List.dropWhile_eq_nil_iff]
    intro x hx
    exact List.all_eq_true.mp h x hx
  unfold pyStrip
  rw [h1]
  rfl

/-- C7: every raw model output that is empty or consists only of
whitespace classifies as `Text` with empty body (`classify` is total, so
no error is possible). -/
theorem c7_whitespace_classifies_text (raw : String)
    (h : raw.data.all isSpace = true) :
    classify raw = ClassifiedResponse.text "" := by
  have hs : pyStrip raw = "" := pyStrip_of_all_space raw h
  simp only [classify]
  rw [hs]
  decide

/-- C7 witness: a string of blanks, tabs and newlines classifies as `Text`
with empty body. -/
theorem c7_whitespace_classifies_text_witness :
    classify " \n\t \x0c " = ClassifiedResponse.text "" :=
  c7_whitespace_classifies_text " \n\t \x0c " (by decide)

/-- C2 counterexample: the command `"cd\t../../x"` reaches the gate (it
does not carry the `"cd "` interception marker), splits on `/` into a list
containing a `".."` segment, and its base token `"cd"` is outside the
claim's four-command set `ls`/`cat`/`find`/`grep`; yet the gate's decision
is the whitelist denial naming `cd`, not the `..` traversal block, because
the code's exemption list also contains `"cd"`. -/
theorem c2_counterexample_cd_tab :
    pyStartswith "cd\t../../x" "cd " = false ∧
    (pySplitChar "cd\t../../x" '/').contains ".." = true ∧
    ["ls", "cat", "find", "grep"].contains (baseCommand "cd\t../../x") = false ∧
    gateDecision "cd\t../../x" = GateDecision.notWhitelisted "cd" ∧
    (execute_shell_command "cd\t../../x" runStub).1 ≠ securityAlertMessage := by
  decide

/-- C2 (amended): every nonempty command text with a `".."` segment whose
base token is outside the code's five-command exemption list
(`cd`/`ls`/`cat`/`find`/`grep`) is denied by the traversal rule: the gate
reports the security-alert reason and the process-execution collaborator
is not invoked. -/
theorem c2_traversal_blocked (cmd : String) (run : String → ExecResult)
    (hne : pyStrip cmd ≠ "")
    (hdots : (pySplitChar cmd '/').contains ".." = true)
    (hnav : navigation_commands.contains (baseCommand cmd) = false) :
    gateDecision cmd = GateDecision.traversalBlocked ∧
    (execute_shell_command cmd run).1 = securityAlertMessage ∧
    (execute_shell_command cmd run).2 = false := by
  have hg : gateDecision cmd = GateDecision.traversalBlocked := by
    simp only [gateDecision]
    rw [if_neg hne, if_pos (by rw [hdots, hnav]; rfl)]
  exact ⟨hg, by simp [execute_shell_command, hg], by simp [execute_shell_command, hg]⟩

/-- C2 witness: the spec's own scenario `rm -rf ../../` is blocked by the
traversal rule although `rm` is whitelisted, and no process is spawned. -/
theorem c2_traversal_blocked_witness :
    gateDecision "rm -rf ../../" = GateDecision.traversalBlocked ∧
    (execute_shell_command "rm -rf ../../" runStub).1 = securityAlertMessage ∧
    (execute_shell_command "rm -rf ../../" runStub).2 = false :=
  c2_traversal_blocked "rm -rf ../../" runStub (by decide) (by decide) (by decide)

set_option maxRecDepth 10000

/-- C1 counterexample: `"wget ../../x"` has base token `wget`, absent from
the whitelist, yet the gate's reason is the fixed security-alert text of
the traversal rule, in which `wget` does not occur as a substring: the
denial stands, but its reason does not name the offending command. -/
theorem c1_counterexample_traversal_reason :
    whitelisted_commands.lookup (baseCommand "wget ../../x") = none ∧
    (execute_shell_command "wget ../../x" runStub).2 = false ∧
    (execute_shell_command "wget ../../x" runStub).1 = securityAlertMessage ∧
    ¬ List.IsInfix "wget".data securityAlertMessage.data ∧
    (execute_shell_command "wget ../../x" runStub).1 ≠ whitelistDenialMessage "wget" := by
  decide

/-- C1 (amended): every nonempty command text whose base token is absent
from the whitelist is denied and the process-execution collaborator is
never invoked; whenever the traversal rule has not fired first (no `".."`
segment, or a base in the exemption list), the reason names the offending
command. -/
theorem c1_unlisted_command_denied (cmd : String) (run : String → ExecResult)
    (hne : pyStrip cmd ≠ "")
    (habs : whitelisted_commands.lookup (baseCommand cmd) = none) :
    (gateDecision cmd).isDenied = true ∧
    (execute_shell_command cmd run).2 = false ∧
    (((pySplitChar cmd '/').contains ".." = false ∨
        navigation_commands.contains (baseCommand cmd) = true) →
      (execute_shell_command cmd run).1 = whitelistDenialMessage (baseCommand cmd)) := by
  have hwl : (whitelisted_commands.lookup (baseCommand cmd)).getD false = false := by
    rw [habs]; rfl
  by_cases hc : ((pySplitChar cmd '/').contains ".." &&
      !(navigation_commands.contains (baseCommand cmd))) = true
  · have hg : gateDecision cmd = GateDecision.traversalBlocked := by
      simp only [gateDecision]
      rw [if_neg hne, if_pos hc]
    refine ⟨by rw [hg]; rfl, by simp [execute_shell_command, hg], fun h' => ?_⟩
    exfalso
    rcases (Bool.and_eq_true _ _).mp hc with ⟨h1, h2⟩
    cases h' with
    | inl h => rw [h] at h1; exact Bool.false_ne_true h1
    | inr h => rw [h] at h2; simp at h2
  · have hg : gateDecision cmd = GateDecision.notWhitelisted (baseCommand cmd) := by
      simp only [gateDecision]
      rw [if_neg hne, if_neg hc, if_pos (by rw [hwl]; rfl)]
    exact ⟨by rw [hg]; rfl, by simp [execute_shell_command, hg],
      fun _ => by simp [execute_shell_command, hg]⟩

/-- C1 witness: `vim notes.txt` is not whitelisted; the gate denies it,
spawns nothing, and the reason names `vim`. -/
theorem c1_unlisted_command_denied_witness :
    (gateDecision "vim notes.txt").isDenied = true ∧
    (execute_shell_command "vim notes.txt" runStub).2 = false ∧
    (execute_shell_command "vim notes.txt" runStub).1 = whitelistDenialMessage "vim" := by
  have h := c1_unlisted_command_denied "vim notes.txt" runStub (by decide) (by decide)
  exact ⟨h.1, h.2.1, (h.2.2 (Or.inl (by decide))).trans (by decide)⟩

/-- C6: when a turn's classified command carries the `cd ` marker, the
working directory changes exactly when the resolved absolute path exists
and is a directory; otherwise the state is unchanged and the turn's output
is the failure message naming the rejected path. -/
theorem c6_cd_gated_by_filesystem (fs : FileSystem) (run : String → ExecResult)
    (st : AgentState) (query : String) (chunks : List String) (cs : String)
    (hclass : classify (concatChunks chunks) = ClassifiedResponse.command cs)
    (hcd : pyStartswith cs "cd " = true) :
    ((fs.path_exists (resolvePath st.current_working_directory (pyStrip (pyDrop cs 3))) &&
        fs.isdir (resolvePath st.current_working_directory (pyStrip (pyDrop cs 3)))) = false →
      (process_query fs run st query (some chunks)).1.current_working_directory =
        st.current_working_directory ∧
      (process_query fs run st query (some chunks)).2 =
        cdFailureMessage (pyStrip (pyDrop cs 3))) ∧
    ((fs.path_exists (resolvePath st.current_working_directory (pyStrip (pyDrop cs 3))) &&
        fs.isdir (resolvePath st.current_working_directory (pyStrip (pyDrop cs 3)))) = true →
      (process_query fs run st query (some chunks)).1.current_working_directory =
        resolvePath st.current_working_directory (pyStrip (pyDrop cs 3))) := by
  constructor
  · intro hff
    constructor
    · simp [process_query, hclass, hcd, changeDirectory, hff]
    · simp [process_query, hclass, hcd, changeDirectory, hff]
  · intro htt
    simp [process_query, hclass, hcd, changeDirectory, htt]

/-- C6 witness: the spec's scenario `[COMMAND]:cd ../projects` on a
filesystem without that path leaves the working directory at `/root` and
reports the explicit failure message naming `../projects`. -/
theorem c6_cd_gated_by_filesystem_witness :
    (process_query fsNone runStub initialState "go up"
        (some ["[COMMAND]:cd ../projects"])).1.current_working_directory = "/root" ∧
    (process_query fsNone runStub initialState "go up"
        (some ["[COMMAND]:cd ../projects"])).2 = cdFailureMessage "../projects" :=
  (c6_cd_gated_by_filesystem fsNone runStub initialState "go up"
    ["[COMMAND]:cd ../projects"] "cd ../projects" (by decide) (by decide)).1 (by decide)

/-- C9: `changeDirectory` is idempotent under repeated identical valid
input: when the first resolution succeeds and the repeated input resolves
to the same absolute path, applying the operation twice yields the same
working directory as applying it once. -/
theorem c9_changeDirectory_idempotent (fs : FileSystem) (cwd p : String)
    (hok : (fs.path_exists (resolvePath cwd p) && fs.isdir (resolvePath cwd p)) = true)
    (hsame : resolvePath (changeDirectory fs cwd p).1 p = resolvePath cwd p) :
    (changeDirectory fs (changeDirectory fs cwd p).1 p).1 = (changeDirectory fs cwd p).1 := by
  have h1 : (changeDirectory fs cwd p).1 = resolvePath cwd p := by
    simp [changeDirectory, hok]
  rw [h1] at hsame ⊢
  simp [changeDirectory, hsame, hok]

/-- C9 witness: on a filesystem where `/tmp` is a directory, `cd /tmp`
twice from `/root` ends where `cd /tmp` once does. -/
theorem c9_changeDirectory_idempotent_witness :
    (changeDirectory fsTmp (changeDirectory fsTmp "/root" "/tmp").1 "/tmp").1 =
      (changeDirectory fsTmp "/root" "/tmp").1 :=
  c9_changeDirectory_idempotent fsTmp "/root" "/tmp" (by decide) (by decide)

/-- C10: a classified command whose text does not start with `"cd "` but
whose base token is `cd` (the bare word, or `cd` separated by a tab) is
not intercepted as a directory change: it falls through to the safety
gate, which denies it through the whitelist check naming `cd`, the
process-execution collaborator is not invoked, and the working directory
is unchanged. -/
theorem c10_bare_cd_not_intercepted (fs : FileSystem) (run : String → ExecResult)
    (st : AgentState) (query : String) (chunks : List String) (cs : String)
    (hclass : classify (concatChunks chunks) = ClassifiedResponse.command cs)
    (hnotcd : pyStartswith cs "cd " = false)
    (hbase : baseCommand cs = "cd") :
    gateDecision cs = GateDecision.notWhitelisted "cd" ∧
    (process_query fs run st query (some chunks)).1.current_working_directory =
      st.current_working_directory ∧
    (process_query fs run st query (some chunks)).2 = whitelistDenialMessage "cd" ∧
    (execute_shell_command cs run).2 = false := by
  have hne : pyStrip cs ≠ "" := by
    intro h
    have hb : baseCommand cs = "" := by
      unfold baseCommand
      rw [h]
      rfl
    rw [hb] at hbase
    exact absurd hbase (by decide)
  have hnavcd : navigation_commands.contains "cd" = true := by decide
  have hwl : (whitelisted_commands.lookup "cd").getD false = false := by decide
  have hg : gateDecision cs = GateDecision.notWhitelisted "cd" := by
    simp only [gateDecision]
    rw [hbase, if_neg hne, if_neg (by rw [hnavcd]; simp), if_pos (by rw [hwl]; rfl)]
  refine ⟨hg, ?_, ?_, ?_⟩
  · simp [process_query, hclass, hnotcd]
  · simp [process_query, hclass, hnotcd, execute_shell_command, hg]
  · simp [execute_shell_command, hg]

/-- C10 witness: the bare command `[COMMAND]:cd` is denied by the
whitelist, spawns nothing, and leaves the working directory at `/root`. -/
theorem c10_bare_cd_not_intercepted_witness :
    gateDecision "cd" = GateDecision.notWhitelisted "cd" ∧
    (process_query fsNone runStub initialState "change dir"
        (some ["[COMMAND]:cd"])).1.current_working_directory = "/root" ∧
    (process_query fsNone runStub initialState "change dir"
        (some ["[COMMAND]:cd"])).2 = whitelistDenialMessage "cd" ∧
    (execute_shell_command "cd" runStub).2 = false :=
  c10_bare_cd_not_intercepted fsNone runStub initialState "change dir"
    ["[COMMAND]:cd"] "cd" (by decide) (by decide) (by decide)

/-- C8: for every command the gate allows, the collaborator is invoked and
the reported text follows the formatting rule of lines 63-78: stdout is
preferred when non-empty, else stderr, else the fixed no-output message,
each wrapped as a labeled code block; a non-zero exit reports the exit
code plus stderr; a missing binary reports the command as not found; any
other fault yields the generic execution-error message. -/
theorem c8_allowed_output_formatting (cmd : String) (run : String → ExecResult)
    (hallow : gateDecision cmd = GateDecision.allowed (baseCommand cmd)) :
    (execute_shell_command cmd run).2 = true ∧
    (execute_shell_command cmd run).1 = formatExecResult (baseCommand cmd) (run cmd) ∧
    (∀ out err, pyStrip out ≠ "" →
      formatExecResult (baseCommand cmd) (ExecResult.completed out err) =
        "Command Output:\n```bash\n" ++ pyStrip out ++ "\n```") ∧
    (∀ out err, pyStrip out = "" → pyStrip err ≠ "" →
      formatExecResult (baseCommand cmd) (ExecResult.completed out err) =
        "Command Error:\n```bash\n" ++ pyStrip err ++ "\n```") ∧
    (∀ out err, pyStrip out = "" → pyStrip err = "" →
      formatExecResult (baseCommand cmd) (ExecResult.completed out err) =
        "Command executed successfully with no output.") ∧
    (∀ code err, formatExecResult (baseCommand cmd) (ExecResult.calledProcessError code err) =
      "Command failed with exit code " ++ toString code ++
        ":\nError Output:\n```bash\n" ++ pyStrip err ++ "\n```") ∧
    (formatExecResult (baseCommand cmd) ExecResult.fileNotFoundError =
      "Error: Command '" ++ baseCommand cmd ++ "' not found. Is it installed?") ∧
    (∀ m, formatExecResult (baseCommand cmd) (ExecResult.otherError m) =
      "An unexpected error occurred during command execution: " ++ m) := by
  refine ⟨?_, ?_, ?_, ?_, ?_, ?_, ?_, ?_⟩
  · simp [execute_shell_command, hallow]
  · simp [execute_shell_command, hallow]
  · intro out err h
    simp [formatExecResult, h]
  · intro out err h0 h1
    simp [formatExecResult, h0, h1]
  · intro out err h0 h1
    simp [formatExecResult, h0, h1]
  · intro code err
    simp [formatExecResult]
  · simp [formatExecResult]
  · intro m
    simp [formatExecResult]

/-- C8 witness: the spec's scenario `ls -l` with whitelisted `ls`: the
process runs and its stdout comes back wrapped as a labeled code block. -/
theorem c8_allowed_output_formatting_witness :
    (execute_shell_command "ls -l" (fun _ => ExecResult.completed "total 0" "")).2 = true ∧
    (execute_shell_command "ls -l" (fun _ => ExecResult.completed "total 0" "")).1 =
      "Command Output:\n```bash\ntotal 0\n```" := by
  have h := c8_allowed_output_formatting "ls -l"
    (fun _ => ExecResult.completed "total 0" "") (by decide)
  exact ⟨h.1, h.2.1.trans ((h.2.2.1 "total 0" "" (by decide)).trans (by decide))⟩

/-- C3 evaluated on the code: a successful turn appends the user Turn then
the assistant Turn (history grows by 2); but on a gateway connect failure
the real composition also grows the history by 2, appending an empty
assistant Turn, because `generate_text` is a generator function and never
returns `None` — only the unreachable `None` branch of `process_query`
(lines 98-100 as written) would grow it by 1. -/
theorem c3_gateway_failure_appends_two :
    (process_query_live fsNone runStub initialState "hi"
        (GatewayOutcome.ok ["hello", " there"])).1.conversation_history =
      [Turn.mk "user" "hi", Turn.mk "assistant" "hello there"] ∧
    (process_query_live fsNone runStub initialState "hello"
        GatewayOutcome.connectError).1.conversation_history =
      [Turn.mk "user" "hello", Turn.mk "assistant" ""] ∧
    (process_query_live fsNone runStub initialState "hello"
        GatewayOutcome.connectError).1.conversation_history.length = 2 ∧
    (process_query fsNone runStub initialState "hello" none).1.conversation_history =
      [Turn.mk "user" "hello"] := by
  decide

/-- C4 evaluated on the code: when the transport cannot connect, the
streaming gateway silently yields an empty fragment sequence, so the
turn's output is the empty string and not the apology; the apology is
produced only by the unreachable `None` branch of `process_query`. -/
theorem c4_gateway_failure_empty_output :
    (process_query_live fsNone runStub initialState "hello"
        GatewayOutcome.connectError).2 = "" ∧
    (process_query fsNone runStub initialState "hello" none).2 = apologyMessage ∧
    apologyMessage ≠ "" := by
  decide
